import Mathlib

/-!
Verification development for the PaymentRouter contract
(`contracts/src/PaymentRouter.sol`) and the WorkflowEngine contract of the
same repository.

Shallow embedding conventions:
* `uint256` is `Nat`; every arithmetic operation in the source is unchecked
  in a context where Solidity 0.8 overflow cannot occur on-chain except where
  noted; subtractions that Solidity would revert on underflow are modelled
  with truncated `Nat` subtraction only where both semantics produce a
  failure of the same operation (noted at each site).
* `address` and `bytes32` are `Nat` (0 is the zero address / empty slot).
* Solidity mappings are total functions with zero-initialised defaults,
  exactly as the EVM storage model provides.
* An external (reverting) operation is `Except String α`: `.error` is a
  revert carrying the `require` message, and by construction leaves no state,
  which models the EVM's all-or-nothing transaction semantics.
* Token movement is returned as a list of `(from, to, amount)` triples in the
  order the source performs the `safeTransfer*` / EIP-3009 calls, with
  `routerAddr` standing for `address(this)`.
* `keccak256`-derived ids are opaque content-derived handles; the creation
  functions take the fresh id as an explicit argument.
-/

set_option linter.unusedVariables false

namespace PaymentRouter

/-- `address(this)` of the router contract; an arbitrary fixed address. -/
def routerAddr : Nat := 900000

/-- `enum PaymentType` of PaymentRouter.sol. -/
inductive PaymentType where
  | SIMPLE
  | SPLIT
  | STREAMING
  | CONDITIONAL
  | ESCROW
  | RECURRING
deriving DecidableEq, Repr

/-- `struct Payment` of PaymentRouter.sol. -/
structure Payment where
  id : Nat := 0
  payer : Nat := 0
  paymentType : PaymentType := PaymentType.SIMPLE
  totalAmount : Nat := 0
  releasedAmount : Nat := 0
  createdAt : Nat := 0
  completedAt : Nat := 0
  isCompleted : Bool := false
  isCancelled : Bool := false
deriving DecidableEq, Repr

/-- `struct SplitRecipient` of PaymentRouter.sol. -/
structure SplitRecipient where
  recipient : Nat
  basisPoints : Nat
deriving DecidableEq, Repr

/-- `struct StreamingPayment` of PaymentRouter.sol. -/
structure StreamingPayment where
  paymentId : Nat := 0
  recipient : Nat := 0
  totalAmount : Nat := 0
  claimedAmount : Nat := 0
  startTime : Nat := 0
  endTime : Nat := 0
  lastClaimTime : Nat := 0
deriving DecidableEq, Repr

/-- `struct ConditionalPayment` of PaymentRouter.sol; `conditionData` is an
opaque byte string, kept abstract as a list of words. -/
structure ConditionalPayment where
  paymentId : Nat := 0
  recipient : Nat := 0
  amount : Nat := 0
  conditionContract : Nat := 0
  conditionData : List Nat := []
  isReleased : Bool := false
deriving DecidableEq, Repr

/-- `struct RecurringPayment` of PaymentRouter.sol. -/
structure RecurringPayment where
  id : Nat := 0
  payer : Nat := 0
  recipient : Nat := 0
  amount : Nat := 0
  interval : Nat := 0
  nextPaymentTime : Nat := 0
  totalPayments : Nat := 0
  completedPayments : Nat := 0
  isActive : Bool := false
deriving DecidableEq, Repr

/-- Contract storage of PaymentRouter (mappings are total functions with
zero defaults, as in EVM storage). `userPayments` is bookkeeping only and
is included for completeness. -/
structure State where
  payments : Nat → Payment := fun _ => {}
  splitRecipients : Nat → List SplitRecipient := fun _ => []
  streamingPayments : Nat → StreamingPayment := fun _ => {}
  conditionalPayments : Nat → ConditionalPayment := fun _ => {}
  recurringPayments : Nat → RecurringPayment := fun _ => {}
  userPayments : Nat → List Nat := fun _ => []
  usedNonces : Nat → Bool := fun _ => false
  totalPaymentsProcessed : Nat := 0
  totalVolumeProcessed : Nat := 0

/-- Point update of a total map. -/
def upd {α : Type} (m : Nat → α) (k : Nat) (v : α) : Nat → α :=
  fun k2 => if k2 = k then v else m k2

@[simp] theorem upd_same {α : Type} (m : Nat → α) (k : Nat) (v : α) :
    upd m k v k = v := by simp [upd]

@[simp] theorem upd_other {α : Type} (m : Nat → α) (k k2 : Nat) (v : α)
    (h : k2 ≠ k) : upd m k v k2 = m k2 := by simp [upd, h]

/-- A token movement `(from, to, amount)` in source order. -/
abbrev Move := Nat × Nat × Nat

/-- Result of a non-view router call: new storage plus the token movements
performed, or a revert message. -/
abbrev Res := Except String (State × List Move)

/-- `processX402Payment` (PaymentRouter.sol lines 140–170).

`authOk` is the outcome of the external
`paymentTokenWithPermit.transferWithAuthorization` call: `false` means that
call reverted, which reverts the whole transaction (so the nonce marking is
rolled back too, hence the `.error` carries no state). -/
def processX402Payment (s : State) (now : Nat)
    (source dest value validAfter validBefore nonce : Nat)
    (authOk : Bool) : Res :=
  if s.usedNonces nonce then .error "Nonce already used"
  else if now < validAfter then .error "Payment not yet valid"
  else if ¬ now < validBefore then .error "Payment expired"
  else if ¬ authOk then .error "transferWithAuthorization reverted"
  else .ok
    ({ s with
        usedNonces := upd s.usedNonces nonce true
        totalPaymentsProcessed := s.totalPaymentsProcessed + 1
        totalVolumeProcessed := s.totalVolumeProcessed + value },
      [(source, dest, value)])

/-- Share of one split recipient: `(totalAmount * basisPoints) / 10000`
(PaymentRouter.sol line 195). -/
def splitShare (totalAmount : Nat) (r : SplitRecipient) : Nat :=
  totalAmount * r.basisPoints / 10000

/-- `createSplitPayment` (PaymentRouter.sol lines 175–218).
`paymentId` stands for the keccak-derived id. Validation happens before any
token transfer, exactly as in the source; the pull from the caller and the
per-recipient pushes appear in `moves` in source order. -/
def createSplitPayment (s : State) (caller now paymentId : Nat)
    (recipients : List SplitRecipient) (totalAmount : Nat) : Res :=
  if ¬ (0 < recipients.length ∧ recipients.length ≤ 20) then
    .error "Invalid recipient count"
  else if recipients.any (fun r => r.recipient = 0) then
    .error "Invalid recipient"
  else if ¬ ((recipients.map (fun r => r.basisPoints)).sum = 10000) then
    .error "Basis points must sum to 10000"
  else .ok
    ({ s with
        payments := upd s.payments paymentId
          { id := paymentId
            payer := caller
            paymentType := PaymentType.SPLIT
            totalAmount := totalAmount
            releasedAmount := totalAmount
            createdAt := now
            completedAt := now
            isCompleted := true
            isCancelled := false }
        splitRecipients := upd s.splitRecipients paymentId recipients
        userPayments := upd s.userPayments caller
          (s.userPayments caller ++ [paymentId])
        totalPaymentsProcessed := s.totalPaymentsProcessed + 1
        totalVolumeProcessed := s.totalVolumeProcessed + totalAmount },
      (caller, routerAddr, totalAmount) ::
        recipients.map (fun r => (routerAddr, r.recipient, splitShare totalAmount r)))

/-- `createStreamingPayment` (PaymentRouter.sol lines 223–261). -/
def createStreamingPayment (s : State) (caller now paymentId : Nat)
    (recipient totalAmount duration : Nat) : Res :=
  if recipient = 0 then .error "Invalid recipient"
  else if ¬ 0 < totalAmount then .error "Amount must be positive"
  else if ¬ 0 < duration then .error "Duration must be positive"
  else .ok
    ({ s with
        streamingPayments := upd s.streamingPayments paymentId
          { paymentId := paymentId
            recipient := recipient
            totalAmount := totalAmount
            claimedAmount := 0
            startTime := now
            endTime := now + duration
            lastClaimTime := now }
        payments := upd s.payments paymentId
          { id := paymentId
            payer := caller
            paymentType := PaymentType.STREAMING
            totalAmount := totalAmount
            releasedAmount := 0
            createdAt := now
            completedAt := 0
            isCompleted := false
            isCancelled := false }
        userPayments := upd s.userPayments caller
          (s.userPayments caller ++ [paymentId]) },
      [(caller, routerAddr, totalAmount)])

/-- `elapsed` of `claimStreamingPayment` (PaymentRouter.sol lines 271–273):
`block.timestamp > endTime ? endTime - startTime : block.timestamp - startTime`.
On-chain `now ≥ startTime` always holds (start is the creation time), so the
truncated subtraction agrees with Solidity's checked one. -/
def streamElapsed (stream : StreamingPayment) (now : Nat) : Nat :=
  if now > stream.endTime then stream.endTime - stream.startTime
  else now - stream.startTime

/-- `vestedAmount` of `claimStreamingPayment` (line 276). -/
def streamVested (stream : StreamingPayment) (now : Nat) : Nat :=
  stream.totalAmount * streamElapsed stream now / (stream.endTime - stream.startTime)

/-- `claimStreamingPayment` (PaymentRouter.sol lines 266–294).
`claimable = vestedAmount - claimedAmount` uses truncated subtraction: when
`vestedAmount < claimedAmount` Solidity reverts on the checked subtraction
while here `claimable = 0` fails the `claimable > 0` require — both are a
revert of the whole call, so the observable semantics agree. -/
def claimStreamingPayment (s : State) (caller now paymentId : Nat) : Res :=
  let stream := s.streamingPayments paymentId
  if ¬ stream.recipient = caller then .error "Not recipient"
  else if ¬ stream.claimedAmount < stream.totalAmount then .error "Fully claimed"
  else
    let claimable := streamVested stream now - stream.claimedAmount
    if ¬ 0 < claimable then .error "Nothing to claim"
    else
      let newClaimed := stream.claimedAmount + claimable
      let p := s.payments paymentId
      .ok
        ({ s with
            streamingPayments := upd s.streamingPayments paymentId
              { stream with claimedAmount := newClaimed, lastClaimTime := now }
            payments := upd s.payments paymentId
              (if newClaimed ≥ stream.totalAmount then
                { p with releasedAmount := newClaimed
                         isCompleted := true
                         completedAt := now }
              else { p with releasedAmount := newClaimed }) },
          [(routerAddr, caller, claimable)])

/-- `createConditionalPayment` (PaymentRouter.sol lines 299–336). -/
def createConditionalPayment (s : State) (caller now paymentId : Nat)
    (recipient amount conditionContract : Nat) (conditionData : List Nat) : Res :=
  if recipient = 0 then .error "Invalid recipient"
  else if ¬ 0 < amount then .error "Amount must be positive"
  else .ok
    ({ s with
        conditionalPayments := upd s.conditionalPayments paymentId
          { paymentId := paymentId
            recipient := recipient
            amount := amount
            conditionContract := conditionContract
            conditionData := conditionData
            isReleased := false }
        payments := upd s.payments paymentId
          { id := paymentId
            payer := caller
            paymentType := PaymentType.CONDITIONAL
            totalAmount := amount
            releasedAmount := 0
            createdAt := now
            completedAt := 0
            isCompleted := false
            isCancelled := false }
        userPayments := upd s.userPayments caller
          (s.userPayments caller ++ [paymentId]) },
      [(caller, routerAddr, amount)])

/-- `releaseConditionalPayment` (PaymentRouter.sol lines 341–360).
`condOk` is the outcome of the external static call against
`conditionContract` with `conditionData`: `true` iff the call succeeded and
returned an ABI-encoded `true`. The source consults it only when
`conditionContract != address(0)`. -/
def releaseConditionalPayment (s : State) (caller now paymentId : Nat)
    (condOk : Bool) : Res :=
  let condPayment := s.conditionalPayments paymentId
  if condPayment.isReleased then .error "Already released"
  else if condPayment.conditionContract ≠ 0 ∧ ¬ condOk then
    .error "Condition not met"
  else
    let p := s.payments paymentId
    .ok
      ({ s with
          conditionalPayments := upd s.conditionalPayments paymentId
            { condPayment with isReleased := true }
          payments := upd s.payments paymentId
            { p with releasedAmount := condPayment.amount
                     isCompleted := true
                     completedAt := now }
          totalVolumeProcessed := s.totalVolumeProcessed + condPayment.amount },
        [(routerAddr, condPayment.recipient, condPayment.amount)])

/-- `createRecurringPayment` (PaymentRouter.sol lines 365–407). -/
def createRecurringPayment (s : State) (caller now paymentId : Nat)
    (recipient amount interval totalPayments : Nat) : Res :=
  if recipient = 0 then .error "Invalid recipient"
  else if ¬ (0 < amount ∧ 0 < interval ∧ 0 < totalPayments) then
    .error "Invalid parameters"
  else
    let fullAmount := amount * totalPayments
    .ok
      ({ s with
          recurringPayments := upd s.recurringPayments paymentId
            { id := paymentId
              payer := caller
              recipient := recipient
              amount := amount
              interval := interval
              nextPaymentTime := now
              totalPayments := totalPayments
              completedPayments := 0
              isActive := true }
          payments := upd s.payments paymentId
            { id := paymentId
              payer := caller
              paymentType := PaymentType.RECURRING
              totalAmount := fullAmount
              releasedAmount := 0
              createdAt := now
              completedAt := 0
              isCompleted := false
              isCancelled := false }
          userPayments := upd s.userPayments caller
            (s.userPayments caller ++ [paymentId]) },
        [(caller, routerAddr, fullAmount)])

/-- `executeRecurringPayment` (PaymentRouter.sol lines 412–433).
Note the source sets `nextPaymentTime = block.timestamp + interval`, not
`nextPaymentTime + interval`. -/
def executeRecurringPayment (s : State) (now paymentId : Nat) : Res :=
  let recurring := s.recurringPayments paymentId
  if ¬ recurring.isActive then .error "Not active"
  else if now < recurring.nextPaymentTime then .error "Not yet due"
  else if ¬ recurring.completedPayments < recurring.totalPayments then
    .error "All payments completed"
  else
    let newCompleted := recurring.completedPayments + 1
    let p := s.payments paymentId
    let done := newCompleted ≥ recurring.totalPayments
    .ok
      ({ s with
          recurringPayments := upd s.recurringPayments paymentId
            { recurring with
                completedPayments := newCompleted
                nextPaymentTime := now + recurring.interval
                isActive := ¬ done }
          payments := upd s.payments paymentId
            (if done then
              { p with releasedAmount := p.releasedAmount + recurring.amount
                       isCompleted := true
                       completedAt := now }
            else
              { p with releasedAmount := p.releasedAmount + recurring.amount })
          totalVolumeProcessed := s.totalVolumeProcessed + recurring.amount },
        [(routerAddr, recurring.recipient, recurring.amount)])

/-- `cancelPayment` (PaymentRouter.sol lines 438–458). The refund transfer
is performed only when `refundAmount > 0`; the subtraction
`totalAmount - releasedAmount` never underflows on-chain because
`releasedAmount ≤ totalAmount` is maintained by every operation. -/
def cancelPayment (s : State) (caller now paymentId : Nat) : Res :=
  let payment := s.payments paymentId
  if ¬ payment.payer = caller then .error "Not payer"
  else if payment.isCompleted ∨ payment.isCancelled then .error "Cannot cancel"
  else
    let refundAmount := payment.totalAmount - payment.releasedAmount
    .ok
      ({ s with
          payments := upd s.payments paymentId
            { payment with isCancelled := true, completedAt := now }
          recurringPayments :=
            if payment.paymentType = PaymentType.RECURRING then
              upd s.recurringPayments paymentId
                { s.recurringPayments paymentId with isActive := false }
            else s.recurringPayments },
        if 0 < refundAmount then [(routerAddr, caller, refundAmount)] else [])

/-- Project the post-state out of a call result (zero state on revert). -/
def okState (r : Res) : State :=
  match r with
  | .ok (s, _) => s
  | .error _ => {}

/-- Project the token movements out of a call result. -/
def okMoves (r : Res) : List Move :=
  match r with
  | .ok (_, m) => m
  | .error _ => []

/-- Did the call succeed? -/
def isOk (r : Res) : Bool :=
  match r with
  | .ok _ => true
  | .error _ => false

/-- The revert message of a failed call (empty on success). -/
def errMsg (r : Res) : String :=
  match r with
  | .ok _ => ""
  | .error e => e

end PaymentRouter

namespace WorkflowEngine

/-- `type(uint256).max`, the "no handler" / terminal sentinel of
WorkflowEngine.sol. -/
def UINT256_MAX : Nat := 2 ^ 256 - 1

/-- `enum StepType` of WorkflowEngine.sol. -/
inductive StepType where
  | CALL_AGENT
  | TRANSFER
  | SWAP
  | CONDITION
  | PARALLEL
  | DELAY
  | CUSTOM
deriving DecidableEq, Repr

/-- `enum ConditionType` of WorkflowEngine.sol. -/
inductive ConditionType where
  | BALANCE_GT
  | BALANCE_LT
  | PRICE_GT
  | PRICE_LT
  | TIME_GT
  | TIME_LT
  | CUSTOM
deriving DecidableEq, Repr

/-- `struct WorkflowStep` of WorkflowEngine.sol. `callData` and
`conditionData` are ABI-encoded byte strings, modelled as lists of 32-byte
words. -/
structure WorkflowStep where
  stepType : StepType
  agentId : Nat := 0
  targetContract : Nat := 0
  callData : List Nat := []
  value : Nat := 0
  gasLimit : Nat := 0
  conditionType : ConditionType := ConditionType.BALANCE_GT
  conditionData : List Nat := []
  nextStepOnSuccess : Nat := 0
  nextStepOnFailure : Nat := 0
deriving DecidableEq, Repr

/-- `struct Workflow` of WorkflowEngine.sol (the `totalGasUsed` field is
kept but gas amounts are not modelled, so it stays 0). -/
structure Workflow where
  id : Nat := 0
  owner : Nat := 0
  name : String := ""
  description : String := ""
  steps : List WorkflowStep := []
  isActive : Bool := false
  totalExecutions : Nat := 0
  successfulExecutions : Nat := 0
  totalGasUsed : Nat := 0
  createdAt : Nat := 0
  lastExecutedAt : Nat := 0

/-- `struct WorkflowExecution` of WorkflowEngine.sol (gasUsed not
modelled). -/
structure WorkflowExecution where
  workflowId : Nat := 0
  executor : Nat := 0
  startStep : Nat := 0
  currentStep : Nat := 0
  completed : Bool := false
  success : Bool := false
  errorMessage : String := ""
  startedAt : Nat := 0
  completedAt : Nat := 0
deriving DecidableEq, Repr

/-- Environment seen by one `executeWorkflow` transaction: the block clock,
token balances, and the outcomes of the external calls a step can make.
`transferResult to amount` is the `paymentToken.transferFrom` outcome:
`none` means the call reverted (the `catch` branch), `some b` means it
returned `b`. `recordCallOk` and `customCallOk` are `true` iff the
corresponding external call did not revert. -/
structure Env where
  now : Nat := 0
  balanceOf : Nat → Nat := fun _ => 0
  recordCallOk : Nat → Bool := fun _ => true
  transferResult : Nat → Nat → Option Bool := fun _ _ => some true
  customCallOk : Nat → List Nat → Bool := fun _ _ => true

/-- `abi.decode(data, (address, uint256))`; `none` models the revert a
malformed encoding produces. -/
def decodeAddrUint : List Nat → Option (Nat × Nat)
  | a :: b :: _ => some (a, b)
  | _ => none

/-- `abi.decode(data, (uint256))`. -/
def decodeUint : List Nat → Option Nat
  | a :: _ => some a
  | _ => none

/-- `_evaluateCondition` (WorkflowEngine.sol lines 276–294): the four
recognized kinds read live balance/clock state; every other kind falls
through to `return true`. `none` is a decode revert. -/
def evaluateCondition (env : Env) (conditionType : ConditionType)
    (conditionData : List Nat) : Option Bool :=
  match conditionType with
  | ConditionType.BALANCE_GT =>
      (decodeAddrUint conditionData).map fun p => env.balanceOf p.1 > p.2
  | ConditionType.BALANCE_LT =>
      (decodeAddrUint conditionData).map fun p => env.balanceOf p.1 < p.2
  | ConditionType.TIME_GT =>
      (decodeUint conditionData).map fun t => env.now > t
  | ConditionType.TIME_LT =>
      (decodeUint conditionData).map fun t => env.now < t
  | _ => some true

/-- `_executeStep` (WorkflowEngine.sol lines 225–271): returns
`(success, nextStep)` where `nextStep` starts at `nextStepOnSuccess` and is
reassigned on the source's failure paths. `none` is a revert of the whole
transaction (malformed `abi.decode` input). Note the source quirk: in the
TRANSFER branch a `transferFrom` that returns `false` without reverting
leaves `nextStep` at the success edge — but the caller recomputes the next
index from `success` alone, so this is unobservable there. -/
def executeStep (env : Env) (step : WorkflowStep) : Option (Bool × Nat) :=
  match step.stepType with
  | StepType.CALL_AGENT =>
      if env.recordCallOk step.agentId then some (true, step.nextStepOnSuccess)
      else some (false, step.nextStepOnFailure)
  | StepType.TRANSFER =>
      match decodeAddrUint step.callData with
      | none => none
      | some (dst, amount) =>
        match env.transferResult dst amount with
        | some result => some (result, step.nextStepOnSuccess)
        | none => some (false, step.nextStepOnFailure)
  | StepType.CONDITION =>
      (evaluateCondition env step.conditionType step.conditionData).map
        fun ok =>
          (ok, if ok then step.nextStepOnSuccess else step.nextStepOnFailure)
  | StepType.CUSTOM =>
      let ok := env.customCallOk step.targetContract step.callData
      some (ok, if ok then step.nextStepOnSuccess else step.nextStepOnFailure)
  | StepType.DELAY =>
      (decodeUint step.callData).map fun requiredTime =>
        let ok := env.now ≥ requiredTime
        (ok, if ok then step.nextStepOnSuccess else step.nextStepOnFailure)
  | _ => some (true, step.nextStepOnSuccess)

/-- `workflow.steps[currentStep]`; read only under the loop's
`currentStep < steps.length` check, where `getD` is exactly the list
element. -/
def stepAt (steps : List WorkflowStep) (i : Nat) : WorkflowStep :=
  steps.getD i { stepType := StepType.SWAP }

/-- The `while` loop of `executeWorkflow` (WorkflowEngine.sol lines
177–203). Returns the execution record as of loop exit together with the
list of step indices that were evaluated, in order. `fuel` bounds the
number of iterations, modelling the gas budget: `none` is an out-of-gas
revert (the source has no loop guard of its own). -/
def execLoop (env : Env) (steps : List WorkflowStep) :
    Nat → Nat → WorkflowExecution → List Nat →
    Option (WorkflowExecution × List Nat)
  | 0, _, _, _ => none
  | fuel + 1, currentStep, execution, trace =>
    if currentStep < steps.length then
      let step := stepAt steps currentStep
      match executeStep env step with
      | none => none
      | some (stepSuccess, _) =>
        let trace := trace ++ [currentStep]
        if ¬ stepSuccess ∧ step.nextStepOnFailure = UINT256_MAX then
          -- No failure handler, abort workflow
          some ({ execution with
                    success := false
                    errorMessage := "Step failed without handler"
                    currentStep := currentStep }, trace)
        else
          let next := if stepSuccess then step.nextStepOnSuccess
                      else step.nextStepOnFailure
          if next ≥ steps.length ∨ next = UINT256_MAX then
            some ({ execution with
                      success := stepSuccess
                      currentStep := next }, trace)
          else
            execLoop env steps fuel next
              { execution with currentStep := next } trace
    else
      some (execution, trace)

/-- `executionFee` (WorkflowEngine.sol line 90): 0.001 ether in wei. -/
def executionFee : Nat := 10 ^ 15

/-- `executeWorkflow` (WorkflowEngine.sol lines 147–220): preconditions,
then the step loop, then completion bookkeeping on the workflow's
aggregate counters. Returns the updated workflow, the appended
`WorkflowExecution` record, and the list of evaluated step indices. -/
def executeWorkflow (env : Env) (w : Workflow) (executor startStep msgValue : Nat)
    (fuel : Nat) :
    Except String (Workflow × WorkflowExecution × List Nat) :=
  if w.owner = 0 then .error "Workflow not found"
  else if ¬ w.isActive then .error "Workflow not active"
  else if ¬ startStep < w.steps.length then .error "Invalid start step"
  else if msgValue < executionFee then .error "Insufficient execution fee"
  else
    let execution : WorkflowExecution :=
      { workflowId := w.id
        executor := executor
        startStep := startStep
        currentStep := startStep
        completed := false
        success := false
        errorMessage := ""
        startedAt := env.now
        completedAt := 0 }
    match execLoop env w.steps fuel startStep execution [] with
    | none => .error "out of gas"
    | some (execution, trace) =>
      let execution := { execution with completed := true, completedAt := env.now }
      let w :=
        { w with
            totalExecutions := w.totalExecutions + 1
            successfulExecutions :=
              if execution.success then w.successfulExecutions + 1
              else w.successfulExecutions
            lastExecutedAt := env.now }
      .ok (w, execution, trace)

/-- The execution record of a workflow run (zero record on revert). -/
def wfExec (r : Except String (Workflow × WorkflowExecution × List Nat)) :
    WorkflowExecution :=
  match r with
  | .ok (_, e, _) => e
  | .error _ => {}

/-- The list of evaluated step indices of a workflow run. -/
def wfTrace (r : Except String (Workflow × WorkflowExecution × List Nat)) :
    List Nat :=
  match r with
  | .ok (_, _, t) => t
  | .error _ => []

/-- The post-run workflow record (zero record on revert). -/
def wfWorkflow (r : Except String (Workflow × WorkflowExecution × List Nat)) :
    Workflow :=
  match r with
  | .ok (w, _, _) => w
  | .error _ => {}

/-- One loop iteration on a failing step whose `nextStepOnFailure` is the
sentinel aborts immediately: the run is marked failed with the
"Step failed without handler" message, `currentStep` stays at the failing
index, and no further step is evaluated. -/
theorem execLoop_abort (env : Env) (steps : List WorkflowStep)
    (fuel i : Nat) (execution : WorkflowExecution) (trace : List Nat) (n : Nat)
    (hi : i < steps.length)
    (hfail : executeStep env (stepAt steps i) = some (false, n))
    (hsent : (stepAt steps i).nextStepOnFailure = UINT256_MAX) :
    execLoop env steps (fuel + 1) i execution trace
      = some ({ execution with
                  success := false
                  errorMessage := "Step failed without handler"
                  currentStep := i }, trace ++ [i]) := by
  rw [execLoop, if_pos hi]
  simp only [hfail, hsent]
  simp

end WorkflowEngine

open PaymentRouter

/-- C2: `processX402Payment` rejects — reverting, hence with no state
mutation — when the nonce was already used, when `now < validAfter`, or when
`now ≥ validBefore`; on any success the nonce is recorded as used, so a
second submission of the same authorization (indeed of any authorization
with that nonce) fails with the replay-specific message
"Nonce already used". -/
theorem c2_x402_replay_protection
    (s : State) (now source dest value validAfter validBefore nonce : Nat)
    (authOk : Bool) :
    (s.usedNonces nonce = true →
      processX402Payment s now source dest value validAfter validBefore nonce authOk
        = .error "Nonce already used") ∧
    (now < validAfter → s.usedNonces nonce = false →
      processX402Payment s now source dest value validAfter validBefore nonce authOk
        = .error "Payment not yet valid") ∧
    (validBefore ≤ now → s.usedNonces nonce = false → validAfter ≤ now →
      processX402Payment s now source dest value validAfter validBefore nonce authOk
        = .error "Payment expired") ∧
    (∀ s2 moves,
      processX402Payment s now source dest value validAfter validBefore nonce authOk
        = .ok (s2, moves) →
      s2.usedNonces nonce = true ∧
      moves = [(source, dest, value)] ∧
      ∀ now2 source2 dest2 value2 validAfter2 validBefore2 authOk2,
        processX402Payment s2 now2 source2 dest2 value2 validAfter2 validBefore2
          nonce authOk2 = .error "Nonce already used") := by
  refine ⟨?_, ?_, ?_, ?_⟩
  · intro h
    simp [processX402Payment, h]
  · intro h1 h2
    simp [processX402Payment, h1, h2]
  · intro h1 h2 h3
    simp [processX402Payment, h2, Nat.not_lt.mpr h3, Nat.not_lt.mpr h1]
  · intro s2 moves h
    unfold processX402Payment at h
    split at h
    · exact absurd h (by simp)
    · split at h
      · exact absurd h (by simp)
      · split at h
        · exact absurd h (by simp)
        · split at h
          · exact absurd h (by simp)
          · obtain ⟨hs, hm⟩ := by
              have := Except.ok.inj h
              exact Prod.mk.injEq .. ▸ this
            subst hs
            refine ⟨by simp, hm.symm ▸ rfl, ?_⟩
            intro now2 source2 dest2 value2 validAfter2 validBefore2 authOk2
            simp [processX402Payment]

/-- C2 witness: a concrete run — nonce 5 unused, valid window [10, 20),
submitted at time 12 — succeeds, and resubmitting the same authorization
against the post-state fails with "Nonce already used". -/
theorem c2_x402_replay_protection_witness :
    isOk (processX402Payment {} 12 1 2 100 10 20 5 true) = true ∧
    (okState (processX402Payment {} 12 1 2 100 10 20 5 true)).usedNonces 5 = true ∧
    processX402Payment (okState (processX402Payment {} 12 1 2 100 10 20 5 true))
      12 1 2 100 10 20 5 true = .error "Nonce already used" := by
  have h := c2_x402_replay_protection {} 12 1 2 100 10 20 5 true
  have hok : processX402Payment {} 12 1 2 100 10 20 5 true
      = .ok (okState (processX402Payment {} 12 1 2 100 10 20 5 true),
             okMoves (processX402Payment {} 12 1 2 100 10 20 5 true)) := rfl
  obtain ⟨hused, _, hreplay⟩ := h.2.2.2 _ _ hok
  exact ⟨rfl, hused, hreplay 12 1 2 100 10 20 true⟩

/-- C5: an accepted `createSplitPayment` immediately pulls `totalAmount`
from the caller and pushes `floor(totalAmount * basisPoints / 10000)` to
each recipient in list order, and the Payment record is created already
completed, with `releasedAmount = totalAmount` and `completedAt = now`. -/
theorem c5_split_immediate_payout
    (s : State) (caller now paymentId : Nat) (recipients : List SplitRecipient)
    (totalAmount : Nat)
    (hlen : 0 < recipients.length ∧ recipients.length ≤ 20)
    (hnz : recipients.any (fun r => r.recipient = 0) = false)
    (hbps : (recipients.map (fun r => r.basisPoints)).sum = 10000) :
    isOk (createSplitPayment s caller now paymentId recipients totalAmount) = true ∧
    okMoves (createSplitPayment s caller now paymentId recipients totalAmount)
      = (caller, routerAddr, totalAmount)
          :: recipients.map (fun r => (routerAddr, r.recipient, splitShare totalAmount r)) ∧
    (okState (createSplitPayment s caller now paymentId recipients totalAmount)).payments
        paymentId
      = { id := paymentId, payer := caller, paymentType := PaymentType.SPLIT,
          totalAmount := totalAmount, releasedAmount := totalAmount,
          createdAt := now, completedAt := now,
          isCompleted := true, isCancelled := false } := by
  refine ⟨?_, ?_, ?_⟩ <;>
    simp [createSplitPayment, isOk, okMoves, okState, hlen.1, hlen.2, hnz, hbps]

/-- C5 witness: the spec's concrete scenario —
`createSplitPayment [(A = 10, 7000), (B = 11, 3000)] 1000` pays A exactly
700 and B exactly 300 and records the payment completed with
`releasedAmount = 1000`. -/
theorem c5_split_immediate_payout_witness :
    okMoves (createSplitPayment {} 1 0 99 [⟨10, 7000⟩, ⟨11, 3000⟩] 1000)
      = [(1, routerAddr, 1000), (routerAddr, 10, 700), (routerAddr, 11, 300)] ∧
    (okState (createSplitPayment {} 1 0 99 [⟨10, 7000⟩, ⟨11, 3000⟩] 1000)).payments 99
      = { id := 99, payer := 1, paymentType := PaymentType.SPLIT,
          totalAmount := 1000, releasedAmount := 1000,
          createdAt := 0, completedAt := 0,
          isCompleted := true, isCancelled := false } := by
  have h := c5_split_immediate_payout {} 1 0 99 [⟨10, 7000⟩, ⟨11, 3000⟩] 1000
    (by decide) (by decide) (by decide)
  exact ⟨by rw [h.2.1]; rfl, h.2.2⟩

/-- Sum of per-recipient truncated shares is bounded by the truncated share
of the summed basis points. -/
theorem sum_splitShare_le (recipients : List SplitRecipient) (amount : Nat) :
    ((recipients.map (fun r => splitShare amount r)).sum)
      ≤ amount * ((recipients.map (fun r => r.basisPoints)).sum) / 10000 := by
  induction recipients with
  | nil => simp
  | cons r rest ih =>
    simp only [List.map_cons, List.sum_cons]
    calc splitShare amount r + ((rest.map (fun r => splitShare amount r)).sum)
        ≤ amount * r.basisPoints / 10000
            + amount * ((rest.map (fun r => r.basisPoints)).sum) / 10000 :=
          Nat.add_le_add_left ih _
      _ ≤ (amount * r.basisPoints
            + amount * ((rest.map (fun r => r.basisPoints)).sum)) / 10000 :=
          Nat.add_div_le_add_div _ _ _
      _ = amount * (r.basisPoints + (rest.map (fun r => r.basisPoints)).sum) / 10000 := by
          rw [Nat.mul_add]

/-- C6: `createSplitPayment` reverts — before any transfer, since a revert
performs none — whenever the recipient list is empty or longer than 20 or
the basis points do not sum to exactly 10000; and on every accepted call the
total pushed out to recipients, `sum(floor(totalAmount * bp / 10000))`, is
at most `totalAmount`. -/
theorem c6_split_validation_and_rounding
    (s : State) (caller now paymentId : Nat) (recipients : List SplitRecipient)
    (totalAmount : Nat) :
    ((recipients = [] ∨ 20 < recipients.length ∨
        (recipients.map (fun r => r.basisPoints)).sum ≠ 10000) →
      isOk (createSplitPayment s caller now paymentId recipients totalAmount)
        = false) ∧
    (∀ s2 moves,
      createSplitPayment s caller now paymentId recipients totalAmount
        = .ok (s2, moves) →
      ((recipients.map (fun r => r.basisPoints)).sum = 10000 ∧
        ((recipients.map (fun r => splitShare totalAmount r)).sum) ≤ totalAmount)) := by
  constructor
  · intro h
    unfold createSplitPayment
    rcases h with h | h | h
    · subst h; simp [isOk]
    · simp [isOk, Nat.not_le.mpr h]
    · split
      · simp [isOk]
      · split
        · simp [isOk]
        · simp [isOk, h]
  · intro s2 moves h
    unfold createSplitPayment at h
    split at h
    · exact absurd h (by simp)
    · split at h
      · exact absurd h (by simp)
      · split at h
        · exact absurd h (by simp)
        · rename_i hbps
          rw [Decidable.not_not] at hbps
          refine ⟨hbps, ?_⟩
          calc ((recipients.map (fun r => splitShare totalAmount r)).sum)
              ≤ totalAmount * ((recipients.map (fun r => r.basisPoints)).sum) / 10000 :=
                sum_splitShare_le recipients totalAmount
            _ = totalAmount := by rw [hbps]; omega

/-- C6 witness: the empty list is rejected, and the accepted concrete split
`[(10, 7000), (11, 3000)]` of 1000 pays out 700 + 300 ≤ 1000. -/
theorem c6_split_validation_and_rounding_witness :
    isOk (createSplitPayment {} 1 0 99 [] 1000) = false ∧
    (([⟨10, 7000⟩, ⟨11, 3000⟩] : List SplitRecipient).map
        (fun r => r.basisPoints)).sum = 10000 ∧
    ((([⟨10, 7000⟩, ⟨11, 3000⟩] : List SplitRecipient).map
        (fun r => splitShare 1000 r)).sum) ≤ 1000 := by
  have h1 := (c6_split_validation_and_rounding {} 1 0 99 [] 1000).1 (Or.inl rfl)
  have h2 := (c6_split_validation_and_rounding {} 1 0 99
      [⟨10, 7000⟩, ⟨11, 3000⟩] 1000).2
    (okState (createSplitPayment {} 1 0 99 [⟨10, 7000⟩, ⟨11, 3000⟩] 1000))
    (okMoves (createSplitPayment {} 1 0 99 [⟨10, 7000⟩, ⟨11, 3000⟩] 1000)) rfl
  exact ⟨h1, h2.1, h2.2⟩

/-- The source's branching elapsed-time computation equals the spec's
`min(now, endTime) - startTime` form. -/
theorem streamElapsed_eq_min (stream : StreamingPayment) (now : Nat) :
    streamElapsed stream now = min now stream.endTime - stream.startTime := by
  unfold streamElapsed
  split <;> omega

/-- Elapsed time never exceeds the stream's duration. -/
theorem streamElapsed_le (stream : StreamingPayment) (now : Nat) :
    streamElapsed stream now ≤ stream.endTime - stream.startTime := by
  unfold streamElapsed
  split <;> omega

/-- The vested amount never exceeds the stream's total. -/
theorem streamVested_le (stream : StreamingPayment) (now : Nat) :
    streamVested stream now ≤ stream.totalAmount := by
  unfold streamVested
  rcases Nat.eq_zero_or_pos (stream.endTime - stream.startTime) with h | h
  · simp [h]
  · calc stream.totalAmount * streamElapsed stream now / (stream.endTime - stream.startTime)
        ≤ stream.totalAmount * (stream.endTime - stream.startTime)
            / (stream.endTime - stream.startTime) :=
          Nat.div_le_div_right (Nat.mul_le_mul_left _ (streamElapsed_le _ _))
      _ = stream.totalAmount := Nat.mul_div_cancel _ h

/-- C7: `claimStreamingPayment` by the stream's recipient computes
`vested = floor(totalAmount * (min(now, endTime) - startTime) / (endTime - startTime))`
and `claimable = vested - claimedAmount`; it reverts when `claimable = 0`,
and otherwise transfers exactly `claimable` to the recipient, raises
`claimedAmount` by `claimable` (to `vested`), sets `lastClaimTime = now`,
and marks the Payment completed — setting `completedAt` — exactly when the
new `claimedAmount` reaches `totalAmount` (otherwise only `releasedAmount`
is updated). -/
theorem c7_stream_claim_computation
    (s : State) (caller now paymentId : Nat) (stream : StreamingPayment)
    (hstream : s.streamingPayments paymentId = stream)
    (hrec : stream.recipient = caller)
    (hnotfull : stream.claimedAmount < stream.totalAmount) :
    streamVested stream now
      = stream.totalAmount * (min now stream.endTime - stream.startTime)
          / (stream.endTime - stream.startTime) ∧
    (streamVested stream now - stream.claimedAmount = 0 →
      claimStreamingPayment s caller now paymentId = .error "Nothing to claim") ∧
    (0 < streamVested stream now - stream.claimedAmount →
      isOk (claimStreamingPayment s caller now paymentId) = true ∧
      okMoves (claimStreamingPayment s caller now paymentId)
        = [(routerAddr, caller, streamVested stream now - stream.claimedAmount)] ∧
      (okState (claimStreamingPayment s caller now paymentId)).streamingPayments
          paymentId
        = { stream with claimedAmount := streamVested stream now,
                        lastClaimTime := now } ∧
      (stream.totalAmount ≤ streamVested stream now →
        (okState (claimStreamingPayment s caller now paymentId)).payments paymentId
          = { s.payments paymentId with
                releasedAmount := streamVested stream now
                isCompleted := true
                completedAt := now }) ∧
      (streamVested stream now < stream.totalAmount →
        (okState (claimStreamingPayment s caller now paymentId)).payments paymentId
          = { s.payments paymentId with
                releasedAmount := streamVested stream now })) := by
  refine ⟨by rw [streamVested, streamElapsed_eq_min], ?_, ?_⟩
  · intro h0
    simp [claimStreamingPayment, hstream, hrec, hnotfull, h0]
  · intro hpos
    have hvc : stream.claimedAmount + (streamVested stream now - stream.claimedAmount)
        = streamVested stream now := by omega
    refine ⟨?_, ?_, ?_, ?_, ?_⟩
    · simp [claimStreamingPayment, hstream, hrec, hnotfull, Nat.not_eq_zero_of_lt hpos,
        isOk, hpos]
    · simp [claimStreamingPayment, hstream, hrec, hnotfull, okMoves, hpos]
    · simp [claimStreamingPayment, hstream, hrec, hnotfull, okState, hpos, hvc]
    · intro hfull
      simp [claimStreamingPayment, hstream, hrec, hnotfull, okState, hpos, hvc]
      intro h2
      exact absurd h2 (by omega)
    · intro hlt
      simp [claimStreamingPayment, hstream, hrec, hnotfull, okState, hpos, hvc]
      intro h2
      exact absurd h2 (by omega)

/-- C7 witness: a stream of 1000 over [0, 100), claimed by its recipient at
time 50, vests 500 and transfers exactly 500. -/
theorem c7_stream_claim_computation_witness :
    okMoves (claimStreamingPayment
        (okState (createStreamingPayment {} 1 0 42 2 1000 100)) 2 50 42)
      = [(routerAddr, 2, 500)] ∧
    ((okState (claimStreamingPayment
        (okState (createStreamingPayment {} 1 0 42 2 1000 100)) 2 50 42)).streamingPayments
        42).claimedAmount = 500 := by
  have h := c7_stream_claim_computation
    (okState (createStreamingPayment {} 1 0 42 2 1000 100)) 2 50 42
    { paymentId := 42, recipient := 2, totalAmount := 1000, claimedAmount := 0,
      startTime := 0, endTime := 100, lastClaimTime := 0 }
    rfl rfl (by decide)
  obtain ⟨hmv, hst, _⟩ := (h.2.2 (by decide)).2
  exact ⟨by rw [hmv]; rfl, by rw [hst]; rfl⟩

/-- C8: every successful `claimStreamingPayment` call leaves
`claimedAmount` no smaller than before and no larger than `totalAmount`,
and leaves `totalAmount` unchanged — so across any sequence of claims at
arbitrary times `claimedAmount` is monotonically non-decreasing and never
exceeds the stream's total (a reverting call changes no state at all by the
embedding's all-or-nothing semantics). -/
theorem c8_stream_claim_monotone_bounded
    (s : State) (caller now paymentId : Nat) (s2 : State) (moves : List Move)
    (h : claimStreamingPayment s caller now paymentId = .ok (s2, moves)) :
    (s.streamingPayments paymentId).claimedAmount
      ≤ (s2.streamingPayments paymentId).claimedAmount ∧
    (s2.streamingPayments paymentId).claimedAmount
      ≤ (s2.streamingPayments paymentId).totalAmount ∧
    (s2.streamingPayments paymentId).totalAmount
      = (s.streamingPayments paymentId).totalAmount := by
  have hvle := streamVested_le (s.streamingPayments paymentId) now
  simp only [claimStreamingPayment] at h
  split at h
  · exact absurd h (by simp)
  · split at h
    · exact absurd h (by simp)
    · split at h
      · exact absurd h (by simp)
      · rename_i hrec hfull hcl
        rw [Decidable.not_not] at hcl
        obtain ⟨hs2, hm⟩ := by
          have := Except.ok.inj h
          exact Prod.mk.injEq .. ▸ this
        subst hs2
        refine ⟨?_, ?_, ?_⟩ <;> simp [upd_same] <;> omega

/-- C8 witness: claiming the witness stream of 1000 over [0, 100) at time
50 keeps the claimed amount between its old value 0 and the total 1000. -/
theorem c8_stream_claim_monotone_bounded_witness :
    ((okState (createStreamingPayment {} 1 0 42 2 1000 100)).streamingPayments
        42).claimedAmount
      ≤ ((okState (claimStreamingPayment
          (okState (createStreamingPayment {} 1 0 42 2 1000 100)) 2 50 42)).streamingPayments
          42).claimedAmount ∧
    ((okState (claimStreamingPayment
        (okState (createStreamingPayment {} 1 0 42 2 1000 100)) 2 50 42)).streamingPayments
        42).claimedAmount
      ≤ ((okState (claimStreamingPayment
        (okState (createStreamingPayment {} 1 0 42 2 1000 100)) 2 50 42)).streamingPayments
        42).totalAmount := by
  have h := c8_stream_claim_monotone_bounded
    (okState (createStreamingPayment {} 1 0 42 2 1000 100)) 2 50 42
    (okState (claimStreamingPayment
      (okState (createStreamingPayment {} 1 0 42 2 1000 100)) 2 50 42))
    (okMoves (claimStreamingPayment
      (okState (createStreamingPayment {} 1 0 42 2 1000 100)) 2 50 42))
    rfl
  exact ⟨h.1, h.2.1⟩

/-- C1: `claimStreamingPayment` never consults `isCancelled`, so cancelling
a partially claimed stream does NOT block further claims. Concrete run:
payer 1 streams 1000 to recipient 2 over [0, 100); at time 50 the recipient
claims 500; at time 60 the payer cancels and is refunded
`totalAmount - releasedAmount = 500`; yet at time 100 the recipient's claim
still succeeds and transfers another 500 — the contract pays out 1500
against a 1000 deposit, contradicting both the spec's "blocks further
claims" and the escrow accounting. -/
theorem c1_claim_succeeds_after_cancel :
    okMoves (claimStreamingPayment
        (okState (createStreamingPayment {} 1 0 42 2 1000 100)) 2 50 42)
      = [(routerAddr, 2, 500)] ∧
    okMoves (cancelPayment
        (okState (claimStreamingPayment
          (okState (createStreamingPayment {} 1 0 42 2 1000 100)) 2 50 42)) 1 60 42)
      = [(routerAddr, 1, 500)] ∧
    ((okState (cancelPayment
        (okState (claimStreamingPayment
          (okState (createStreamingPayment {} 1 0 42 2 1000 100)) 2 50 42)) 1 60 42)).payments
        42).isCancelled = true ∧
    isOk (claimStreamingPayment
        (okState (cancelPayment
          (okState (claimStreamingPayment
            (okState (createStreamingPayment {} 1 0 42 2 1000 100)) 2 50 42)) 1 60 42))
        2 100 42) = true ∧
    okMoves (claimStreamingPayment
        (okState (cancelPayment
          (okState (claimStreamingPayment
            (okState (createStreamingPayment {} 1 0 42 2 1000 100)) 2 50 42)) 1 60 42))
        2 100 42)
      = [(routerAddr, 2, 500)] :=
  ⟨rfl, rfl, rfl, rfl, rfl⟩

/-- C3 counterexample: the source sets
`nextPaymentTime = block.timestamp + interval`, not
`nextPaymentTime + interval`. A recurring payment created at time 0
(`nextPaymentTime = 0`, `interval = 10`) executed at time 5 ends with
`nextPaymentTime = 15`, while `nextPaymentTime += interval` would give 10. -/
theorem c3_next_payment_time_counterexample :
    ((okState (createRecurringPayment {} 1 0 7 2 10 10 3)).recurringPayments
        7).nextPaymentTime = 0 ∧
    ((okState (createRecurringPayment {} 1 0 7 2 10 10 3)).recurringPayments
        7).interval = 10 ∧
    isOk (executeRecurringPayment
        (okState (createRecurringPayment {} 1 0 7 2 10 10 3)) 5 7) = true ∧
    ((okState (executeRecurringPayment
        (okState (createRecurringPayment {} 1 0 7 2 10 10 3)) 5 7)).recurringPayments
        7).nextPaymentTime = 15 ∧
    ¬ (15 : Nat) = 0 + 10 :=
  ⟨rfl, rfl, rfl, rfl, by decide⟩

/-- C3 (amended): `executeRecurringPayment` fails if the payment is
inactive, not yet due, or fully completed; on success it transfers exactly
`amount` to the recipient, increments `completedPayments` by one, advances
`nextPaymentTime` to `now + interval` (not `nextPaymentTime + interval`),
and deactivates and completes the Payment exactly when the incremented
`completedPayments` reaches `totalPayments`. -/
theorem c3_recurring_execution
    (s : State) (now paymentId : Nat) (rp : RecurringPayment)
    (hrp : s.recurringPayments paymentId = rp) :
    (rp.isActive = false →
      executeRecurringPayment s now paymentId = .error "Not active") ∧
    (rp.isActive = true → now < rp.nextPaymentTime →
      executeRecurringPayment s now paymentId = .error "Not yet due") ∧
    (rp.isActive = true → rp.nextPaymentTime ≤ now →
      rp.totalPayments ≤ rp.completedPayments →
      executeRecurringPayment s now paymentId = .error "All payments completed") ∧
    (rp.isActive = true → rp.nextPaymentTime ≤ now →
      rp.completedPayments < rp.totalPayments →
      okMoves (executeRecurringPayment s now paymentId)
        = [(routerAddr, rp.recipient, rp.amount)] ∧
      ((okState (executeRecurringPayment s now paymentId)).recurringPayments
          paymentId).completedPayments = rp.completedPayments + 1 ∧
      ((okState (executeRecurringPayment s now paymentId)).recurringPayments
          paymentId).nextPaymentTime = now + rp.interval ∧
      (rp.completedPayments + 1 = rp.totalPayments →
        ((okState (executeRecurringPayment s now paymentId)).recurringPayments
            paymentId).isActive = false ∧
        ((okState (executeRecurringPayment s now paymentId)).payments
            paymentId).isCompleted = true ∧
        ((okState (executeRecurringPayment s now paymentId)).payments
            paymentId).completedAt = now) ∧
      (rp.completedPayments + 1 < rp.totalPayments →
        ((okState (executeRecurringPayment s now paymentId)).recurringPayments
            paymentId).isActive = true ∧
        ((okState (executeRecurringPayment s now paymentId)).payments
            paymentId).isCompleted = (s.payments paymentId).isCompleted)) := by
  refine ⟨?_, ?_, ?_, ?_⟩
  · intro h
    simp [executeRecurringPayment, hrp, h]
  · intro h1 h2
    simp [executeRecurringPayment, hrp, h1, h2]
  · intro h1 h2 h3
    simp [executeRecurringPayment, hrp, h1, Nat.not_lt.mpr h2, Nat.not_lt.mpr h3]
  · intro h1 h2 h3
    refine ⟨?_, ?_, ?_, ?_, ?_⟩
    · simp [executeRecurringPayment, hrp, h1, Nat.not_lt.mpr h2, h3, okMoves]
    · simp [executeRecurringPayment, hrp, h1, Nat.not_lt.mpr h2, h3, okState]
    · simp [executeRecurringPayment, hrp, h1, Nat.not_lt.mpr h2, h3, okState]
    · intro hdone
      have hcond : rp.totalPayments ≤ rp.completedPayments + 1 := by omega
      simp [executeRecurringPayment, hrp, h1, Nat.not_lt.mpr h2, h3, okState, hcond]
    · intro hmore
      have hcond : ¬ rp.totalPayments ≤ rp.completedPayments + 1 := by omega
      simp [executeRecurringPayment, hrp, h1, Nat.not_lt.mpr h2, h3, okState, hcond]

/-- C3 witness: a recurring payment of 10 every 10 time units with
`totalPayments = 3`, executed at times 0, 10 and 20: the third execution —
obtained from the theorem — completes the payment (`completedPayments = 3`,
`isActive = false`, Payment `isCompleted = true`), and a fourth execution
at time 30 is rejected (the completed payment has been deactivated, so it
fails the `isActive` check with "Not active"). -/
theorem c3_recurring_execution_witness :
    okMoves (executeRecurringPayment
        (okState (executeRecurringPayment
          (okState (executeRecurringPayment
            (okState (createRecurringPayment {} 1 0 7 2 10 10 3)) 0 7)) 10 7)) 20 7)
      = [(routerAddr, 2, 10)] ∧
    ((okState (executeRecurringPayment
        (okState (executeRecurringPayment
          (okState (executeRecurringPayment
            (okState (createRecurringPayment {} 1 0 7 2 10 10 3)) 0 7)) 10 7)) 20 7)).recurringPayments
        7).completedPayments = 3 ∧
    ((okState (executeRecurringPayment
        (okState (executeRecurringPayment
          (okState (executeRecurringPayment
            (okState (createRecurringPayment {} 1 0 7 2 10 10 3)) 0 7)) 10 7)) 20 7)).recurringPayments
        7).isActive = false ∧
    ((okState (executeRecurringPayment
        (okState (executeRecurringPayment
          (okState (executeRecurringPayment
            (okState (createRecurringPayment {} 1 0 7 2 10 10 3)) 0 7)) 10 7)) 20 7)).payments
        7).isCompleted = true ∧
    executeRecurringPayment
        (okState (executeRecurringPayment
          (okState (executeRecurringPayment
            (okState (executeRecurringPayment
              (okState (createRecurringPayment {} 1 0 7 2 10 10 3)) 0 7)) 10 7)) 20 7)) 30 7
      = .error "Not active" := by
  have h := c3_recurring_execution
    (okState (executeRecurringPayment
      (okState (executeRecurringPayment
        (okState (createRecurringPayment {} 1 0 7 2 10 10 3)) 0 7)) 10 7)) 20 7
    { id := 7, payer := 1, recipient := 2, amount := 10, interval := 10,
      nextPaymentTime := 20, totalPayments := 3, completedPayments := 2,
      isActive := true }
    rfl
  obtain ⟨hmv, hcp, _, hdone, _⟩ := h.2.2.2 rfl (by decide) (by decide)
  obtain ⟨hact, hcmp, _⟩ := hdone rfl
  exact ⟨hmv, hcp, hact, hcmp, rfl⟩

/-- C10: when a conditional payment's stored `conditionContract` is the
zero address, `releaseConditionalPayment` skips the condition call
entirely — its result does not depend on the external predicate's outcome
`condOk` — and transfers the full `amount` to the stored recipient for any
caller; the only guard is the `isReleased` latch, whose being set is the
sole reason the call can revert. -/
theorem c10_conditional_null_release
    (s : State) (caller now paymentId : Nat) (condOk : Bool)
    (cp : ConditionalPayment)
    (hcp : s.conditionalPayments paymentId = cp)
    (hzero : cp.conditionContract = 0) :
    (cp.isReleased = true →
      releaseConditionalPayment s caller now paymentId condOk
        = .error "Already released") ∧
    (cp.isReleased = false →
      releaseConditionalPayment s caller now paymentId condOk
        = releaseConditionalPayment s caller now paymentId true ∧
      isOk (releaseConditionalPayment s caller now paymentId condOk) = true ∧
      okMoves (releaseConditionalPayment s caller now paymentId condOk)
        = [(routerAddr, cp.recipient, cp.amount)] ∧
      ((okState (releaseConditionalPayment s caller now paymentId condOk)).conditionalPayments
          paymentId).isReleased = true ∧
      ((okState (releaseConditionalPayment s caller now paymentId condOk)).payments
          paymentId).isCompleted = true ∧
      ((okState (releaseConditionalPayment s caller now paymentId condOk)).payments
          paymentId).releasedAmount = cp.amount) := by
  constructor
  · intro h
    simp [releaseConditionalPayment, hcp, h]
  · intro h
    refine ⟨?_, ?_, ?_, ?_, ?_, ?_⟩ <;>
      simp [releaseConditionalPayment, hcp, h, hzero, isOk, okMoves, okState]

/-- C10 witness: a conditional payment of 300 to recipient 4 stored with
the zero condition contract is released by an unrelated caller 77 while the
external predicate reports `false`, transferring 300 to the recipient. -/
theorem c10_conditional_null_release_witness :
    okMoves (releaseConditionalPayment
        (okState (createConditionalPayment {} 1 0 13 4 300 0 [])) 77 9 13 false)
      = [(routerAddr, 4, 300)] ∧
    ((okState (releaseConditionalPayment
        (okState (createConditionalPayment {} 1 0 13 4 300 0 [])) 77 9 13 false)).conditionalPayments
        13).isReleased = true := by
  have h := c10_conditional_null_release
    (okState (createConditionalPayment {} 1 0 13 4 300 0 [])) 77 9 13 false
    { paymentId := 13, recipient := 4, amount := 300, conditionContract := 0,
      conditionData := [], isReleased := false }
    rfl rfl
  obtain ⟨_, _, hmv, hrel, _⟩ := h.2 rfl
  exact ⟨hmv, hrel⟩

open WorkflowEngine

/-- C4: whenever the step at which a run currently stands fails and its
`nextStepOnFailure` is the "no handler" sentinel, `executeWorkflow` aborts
immediately: the recorded execution has `success = false`, its
`currentStep` is still the failed step's index, the evaluated-step trace is
exactly that one index (so no later step is evaluated), and the workflow's
success counter is not incremented. -/
theorem c4_no_handler_abort
    (env : Env) (w : Workflow) (executor startStep msgValue fuel n : Nat)
    (hown : ¬ w.owner = 0) (hact : w.isActive = true)
    (hstart : startStep < w.steps.length)
    (hfee : executionFee ≤ msgValue)
    (hfuel : 0 < fuel)
    (hfail : executeStep env (stepAt w.steps startStep) = some (false, n))
    (hsent : (stepAt w.steps startStep).nextStepOnFailure = UINT256_MAX) :
    executeWorkflow env w executor startStep msgValue fuel
      = .ok
        ({ w with
             totalExecutions := w.totalExecutions + 1
             lastExecutedAt := env.now },
         { workflowId := w.id
           executor := executor
           startStep := startStep
           currentStep := startStep
           completed := true
           success := false
           errorMessage := "Step failed without handler"
           startedAt := env.now
           completedAt := env.now },
         [startStep]) := by
  obtain ⟨f, rfl⟩ : ∃ f, fuel = f + 1 := ⟨fuel - 1, by omega⟩
  rw [executeWorkflow, if_neg hown, if_neg (by simp [hact]),
    if_neg (by simp [hstart]), if_neg (by omega)]
  have hl := execLoop_abort env w.steps f startStep
    { workflowId := w.id, executor := executor, startStep := startStep,
      currentStep := startStep, completed := false, success := false,
      errorMessage := "", startedAt := env.now, completedAt := 0 }
    [] n hstart hfail hsent
  simp only [hl]
  simp

/-- C4 witness: a 2-step workflow whose first step is a CALL_AGENT whose
registry call reverts and whose failure edge is the sentinel: the run ends
failed, `currentStep` is still 0, and only step 0 was ever evaluated. -/
theorem c4_no_handler_abort_witness :
    (wfExec (executeWorkflow { recordCallOk := fun _ => false }
        { id := 3, owner := 1, name := "wf", steps :=
            [{ stepType := StepType.CALL_AGENT, agentId := 5,
               nextStepOnSuccess := 1, nextStepOnFailure := UINT256_MAX },
             { stepType := StepType.SWAP, nextStepOnSuccess := 2,
               nextStepOnFailure := 2 }],
          isActive := true }
        9 0 executionFee 5)).success = false ∧
    (wfExec (executeWorkflow { recordCallOk := fun _ => false }
        { id := 3, owner := 1, name := "wf", steps :=
            [{ stepType := StepType.CALL_AGENT, agentId := 5,
               nextStepOnSuccess := 1, nextStepOnFailure := UINT256_MAX },
             { stepType := StepType.SWAP, nextStepOnSuccess := 2,
               nextStepOnFailure := 2 }],
          isActive := true }
        9 0 executionFee 5)).currentStep = 0 ∧
    wfTrace (executeWorkflow { recordCallOk := fun _ => false }
        { id := 3, owner := 1, name := "wf", steps :=
            [{ stepType := StepType.CALL_AGENT, agentId := 5,
               nextStepOnSuccess := 1, nextStepOnFailure := UINT256_MAX },
             { stepType := StepType.SWAP, nextStepOnSuccess := 2,
               nextStepOnFailure := 2 }],
          isActive := true }
        9 0 executionFee 5) = [0] := by
  have h := c4_no_handler_abort { recordCallOk := fun _ => false }
    { id := 3, owner := 1, name := "wf", steps :=
        [{ stepType := StepType.CALL_AGENT, agentId := 5,
           nextStepOnSuccess := 1, nextStepOnFailure := UINT256_MAX },
         { stepType := StepType.SWAP, nextStepOnSuccess := 2,
           nextStepOnFailure := 2 }],
      isActive := true }
    9 0 executionFee 5 UINT256_MAX
    (by decide) rfl (by decide) (Nat.le_refl _) (by decide) rfl rfl
  exact ⟨by rw [h]; rfl, by rw [h]; rfl, by rw [h]; rfl⟩

/-- C9 counterexample: a false Condition step DOES trigger the
"no handler" abort path when its `nextStepOnFailure` is the sentinel — the
outer loop's abort check does not special-case Condition steps. A 1-step
workflow with a TIME_GT-100 condition evaluated at time 50 (so the
condition is `some false`) and sentinel failure edge ends with the abort
path's message "Step failed without handler", refuting the claim that a
false condition never triggers that path. -/
theorem c9_condition_sentinel_abort_counterexample :
    evaluateCondition { now := 50 } ConditionType.TIME_GT [100] = some false ∧
    (wfExec (executeWorkflow { now := 50 }
        { id := 4, owner := 1, name := "cond", steps :=
            [{ stepType := StepType.CONDITION,
               conditionType := ConditionType.TIME_GT, conditionData := [100],
               nextStepOnSuccess := 1, nextStepOnFailure := UINT256_MAX }],
          isActive := true }
        9 0 executionFee 5)).errorMessage = "Step failed without handler" ∧
    (wfExec (executeWorkflow { now := 50 }
        { id := 4, owner := 1, name := "cond", steps :=
            [{ stepType := StepType.CONDITION,
               conditionType := ConditionType.TIME_GT, conditionData := [100],
               nextStepOnSuccess := 1, nextStepOnFailure := UINT256_MAX }],
          isActive := true }
        9 0 executionFee 5)).success = false :=
  ⟨rfl, rfl, rfl⟩

/-- C9 (amended): the executor evaluates BalanceGreaterThan,
BalanceLessThan, TimeGreaterThan and TimeLessThan conditions against live
ledger/clock state, treats every other condition kind (PRICE_GT, PRICE_LT,
CUSTOM) as true, and a Condition step reports the boolean result with the
success edge when true and the failure edge when false; however — like any
other failing step — a false condition whose `nextStepOnFailure` is the
sentinel goes through the loop's "no handler" abort path (shown by the
counterexample). -/
theorem c9_condition_evaluation_and_routing
    (env : Env) (account threshold t : Nat) (rest cd : List Nat)
    (step : WorkflowStep) (hty : step.stepType = StepType.CONDITION) :
    evaluateCondition env ConditionType.BALANCE_GT (account :: threshold :: rest)
      = some (decide (env.balanceOf account > threshold)) ∧
    evaluateCondition env ConditionType.BALANCE_LT (account :: threshold :: rest)
      = some (decide (env.balanceOf account < threshold)) ∧
    evaluateCondition env ConditionType.TIME_GT (t :: rest)
      = some (decide (env.now > t)) ∧
    evaluateCondition env ConditionType.TIME_LT (t :: rest)
      = some (decide (env.now < t)) ∧
    evaluateCondition env ConditionType.PRICE_GT cd = some true ∧
    evaluateCondition env ConditionType.PRICE_LT cd = some true ∧
    evaluateCondition env ConditionType.CUSTOM cd = some true ∧
    (∀ b, evaluateCondition env step.conditionType step.conditionData = some b →
      executeStep env step
        = some (b, if b then step.nextStepOnSuccess else step.nextStepOnFailure)) :=
  ⟨rfl, rfl, rfl, rfl, rfl, rfl, rfl,
    fun b hb => by simp [executeStep, hty, hb]⟩

/-- C9 witness: at time 50 with balance 7 everywhere, TIME_GT 100 is
false, BALANCE_GT 3 is true, an unrecognized PRICE_GT payload is true, and
a concrete TIME_GT-100 Condition step routes to its failure edge 2 with a
false result. -/
theorem c9_condition_evaluation_and_routing_witness :
    evaluateCondition { now := 50, balanceOf := fun _ => 7 }
      ConditionType.TIME_GT [100] = some false ∧
    evaluateCondition { now := 50, balanceOf := fun _ => 7 }
      ConditionType.BALANCE_GT [30, 3] = some true ∧
    evaluateCondition { now := 50, balanceOf := fun _ => 7 }
      ConditionType.PRICE_GT [1, 2, 3] = some true ∧
    executeStep { now := 50, balanceOf := fun _ => 7 }
        { stepType := StepType.CONDITION,
          conditionType := ConditionType.TIME_GT, conditionData := [100],
          nextStepOnSuccess := 1, nextStepOnFailure := 2 }
      = some (false, 2) := by
  have h := c9_condition_evaluation_and_routing
    { now := 50, balanceOf := fun _ => 7 } 30 3 100 [] [1, 2, 3]
    { stepType := StepType.CONDITION,
      conditionType := ConditionType.TIME_GT, conditionData := [100],
      nextStepOnSuccess := 1, nextStepOnFailure := 2 } rfl
  refine ⟨?_, ?_, h.2.2.2.2.1, ?_⟩
  · exact h.2.2.1
  · exact h.1
  · have := h.2.2.2.2.2.2.2 false rfl
    simpa using this
